import Mathlib

/-!
Verification of the progress-reporting protocol and the credential-scoped
client factory of the cloudformation-cli-nodejs-plugin contract layer
(source file src/proxy.ts).

The embedding models the TypeScript/JavaScript runtime values the code
manipulates: a JavaScript value type with its truthiness predicate, the
ProgressEvent record with the class-field defaults, the partial-object
constructor (Object.assign semantics), the fluent builder used by the
convenience constructors, and the SessionProxy client factory with its
object-spread configuration merge.
-/

set_option autoImplicit false

namespace CfnProxy

/--
A JavaScript runtime value, as far as the code under verification needs:
the arguments typed `any` in proxy.ts (the `model` and `ctx` parameters of
`ProgressEvent.progress`/`success`, the `callbackContext` and
`resourceModel` fields) and the values of configuration objects.
`undefined` doubles as the value of an absent optional argument and of an
unset optional field, exactly as in JavaScript.
-/
inductive JsValue where
  | undefined : JsValue
  | null : JsValue
  | bool (b : Bool) : JsValue
  | num (n : Int) : JsValue
  | str (s : String) : JsValue
  | obj (fields : List (String × JsValue)) : JsValue
deriving Repr

/--
JavaScript truthiness: `undefined`, `null`, `false`, `0` and the empty
string are falsy; every other value, in particular every object, is
truthy. This is the test performed by `if (ctx)` / `if (model)` in
`ProgressEvent.progress` and by `if (!credentials)` in
`SessionProxy.getSession`.
-/
def JsValue.truthy : JsValue → Bool
  | .undefined => false
  | .null => false
  | .bool b => b
  | .num n => n != 0
  | .str s => s != ""
  | .obj _ => true

/--
Modelled from the spec: the `OperationStatus` enumeration imported from
`./interface` (not under src/). The spec fixes its values as
IN_PROGRESS, SUCCESS and FAILED.
-/
inductive OperationStatus where
  | InProgress : OperationStatus
  | Success : OperationStatus
  | Failed : OperationStatus
deriving Repr, DecidableEq

/--
Modelled from the spec: `HandlerErrorCode`, imported from `./interface`
(not under src/), is a fixed enumeration of handler error
classifications owned by the external collaborator; its inhabitants are
opaque to this core, so it is embedded as its wire representation, a
string.
-/
abbrev HandlerErrorCode := String

/--
The ProgressEvent record of proxy.ts, with each field at its JavaScript
runtime type. An unset optional field holds `undefined`, rendered `none`
for fields whose declared type is known, and `JsValue.undefined` for the
fields generic in the resource-model and callback-context types, which
the convenience constructors receive as `any`. The class-field
initializers of proxy.ts give the defaults recorded here: `message`
starts as the empty string, `callbackDelaySeconds` starts as 0, and
`status`, declared without an initializer, starts `undefined`.
-/
structure ProgressEvent where
  status : Option OperationStatus := none
  errorCode : Option HandlerErrorCode := none
  message : Option String := some ""
  callbackContext : JsValue := JsValue.undefined
  callbackDelaySeconds : Option Int := some 0
  resourceModel : JsValue := JsValue.undefined
  resourceModels : Option (List JsValue) := none
  nextToken : Option String := none
deriving Repr

/--
A `Partial<ProgressEvent>` source object. Every key may be absent (outer
`none`) or present with a runtime value that may itself be `undefined`
(inner `none`, or `JsValue.undefined`): JavaScript distinguishes a
missing key from a key explicitly set to `undefined`, and
`Object.assign` copies the latter like any other present key.
-/
structure PartialProgressEvent where
  status : Option (Option OperationStatus) := none
  errorCode : Option (Option HandlerErrorCode) := none
  message : Option (Option String) := none
  callbackContext : Option JsValue := none
  callbackDelaySeconds : Option (Option Int) := none
  resourceModel : Option JsValue := none
  resourceModels : Option (Option (List JsValue)) := none
  nextToken : Option (Option String) := none
deriving Repr

/--
The ProgressEvent constructor of proxy.ts: the class-field initializers
run first, establishing the defaults; then, when a partial source object
was passed (`if (partial)`), `Object.assign(this, partial)` overwrites
exactly the fields whose key is present in the source, copying their
values verbatim, including an explicit `undefined`. No validation is
performed on any path.
-/
def ProgressEvent.fromPartial (src : Option PartialProgressEvent) : ProgressEvent :=
  match src with
  | none => {}
  | some p =>
    { status := p.status.getD none
      errorCode := p.errorCode.getD none
      message := p.message.getD (some "")
      callbackContext := p.callbackContext.getD JsValue.undefined
      callbackDelaySeconds := p.callbackDelaySeconds.getD (some 0)
      resourceModel := p.resourceModel.getD JsValue.undefined
      resourceModels := p.resourceModels.getD none
      nextToken := p.nextToken.getD none }

/--
Modelled from the spec: the fluent builder that the `tombok` `@builder`
class decorator installs on ProgressEvent (the static `builder()` method
in proxy.ts is a typing workaround whose body the decorator replaces;
the builder implementation itself is not under src/). Per the spec, the
builder holds one optional slot per attribute, filled by the chained
setter for that attribute; `none` means the setter was never called.
-/
structure IBuilder where
  status : Option OperationStatus := none
  errorCode : Option HandlerErrorCode := none
  message : Option String := none
  callbackContext : Option JsValue := none
  callbackDelaySeconds : Option Int := none
  resourceModel : Option JsValue := none
  resourceModels : Option (List JsValue) := none
  nextToken : Option String := none
deriving Repr

/-- Modelled from the spec: the chained setter `.status(s)` of the builder. -/
def IBuilder.setStatus (b : IBuilder) (s : OperationStatus) : IBuilder :=
  { b with status := some s }

/-- Modelled from the spec: the chained setter `.errorCode(c)` of the builder. -/
def IBuilder.setErrorCode (b : IBuilder) (c : HandlerErrorCode) : IBuilder :=
  { b with errorCode := some c }

/-- Modelled from the spec: the chained setter `.message(m)` of the builder. -/
def IBuilder.setMessage (b : IBuilder) (m : String) : IBuilder :=
  { b with message := some m }

/-- Modelled from the spec: the chained setter `.callbackContext(v)` of the builder. -/
def IBuilder.setCallbackContext (b : IBuilder) (v : JsValue) : IBuilder :=
  { b with callbackContext := some v }

/-- Modelled from the spec: the chained setter `.resourceModel(v)` of the builder. -/
def IBuilder.setResourceModel (b : IBuilder) (v : JsValue) : IBuilder :=
  { b with resourceModel := some v }

/--
Modelled from the spec: `ProgressEvent.builder()` called with no
template, as every call site in proxy.ts does, yields a builder with
every slot empty.
-/
def ProgressEvent.builderStart : IBuilder := {}

/--
Modelled from the spec: the assembly half of the terminal `build()`
step. A slot that was set is copied into the event; a slot never set
leaves the corresponding attribute at its class default (`message = ''`,
`callbackDelaySeconds = 0`, every optional attribute absent).
-/
def IBuilder.build (b : IBuilder) : ProgressEvent :=
  { status := b.status
    errorCode := b.errorCode
    message := some (b.message.getD "")
    callbackContext := (b.callbackContext).getD JsValue.undefined
    callbackDelaySeconds := some ((b.callbackDelaySeconds).getD 0)
    resourceModel := (b.resourceModel).getD JsValue.undefined
    resourceModels := b.resourceModels
    nextToken := b.nextToken }

/--
Modelled from the spec: the terminal `build()` step in full, including
the validation the spec assigns to it — `status` must have been set, and
when it was set to FAILED an `errorCode` must have been set too.
`none` models the construction failing validation instead of returning
an event.
-/
def IBuilder.buildChecked (b : IBuilder) : Option ProgressEvent :=
  if (b.status).isSome ∧ (b.status = some OperationStatus.Failed → (b.errorCode).isSome) then
    some b.build
  else
    none

/--
The builder chain of `ProgressEvent.failed(errorCode, message)` in
proxy.ts, before the terminal `build()`:
`builder().status(Failed).errorCode(errorCode).message(message)`.
-/
def ProgressEvent.failedSlots (errorCode : HandlerErrorCode) (message : String) : IBuilder :=
  ((ProgressEvent.builderStart.setStatus OperationStatus.Failed).setErrorCode
    errorCode).setMessage message

/--
Convenience constructor `ProgressEvent.failed(errorCode, message)` of
proxy.ts: its builder chain, terminated by `build()`.
-/
def ProgressEvent.failed (errorCode : HandlerErrorCode) (message : String) : ProgressEvent :=
  (ProgressEvent.failedSlots errorCode message).build

/--
The builder chain of `ProgressEvent.progress(model, ctx)` in proxy.ts,
before the terminal `build()`: `builder().status(InProgress)`, then
`.callbackContext(ctx)` only when `if (ctx)` finds `ctx` truthy, then
`.resourceModel(model)` only when `if (model)` finds `model` truthy. An
argument the caller omitted arrives as `JsValue.undefined`.
-/
def ProgressEvent.progressSlots (model ctx : JsValue) : IBuilder :=
  let b := ProgressEvent.builderStart.setStatus OperationStatus.InProgress
  let b := if ctx.truthy then b.setCallbackContext ctx else b
  let b := if model.truthy then b.setResourceModel model else b
  b

/--
Convenience constructor `ProgressEvent.progress(model, ctx)` of
proxy.ts: its builder chain, terminated by `build()`.
-/
def ProgressEvent.progress (model ctx : JsValue) : ProgressEvent :=
  (ProgressEvent.progressSlots model ctx).build

/--
Convenience constructor `ProgressEvent.success(model, ctx)` of proxy.ts:
it calls `ProgressEvent.progress(model, ctx)` and then overwrites
`event.status = OperationStatus.Success` on the resulting event.
-/
def ProgressEvent.success (model ctx : JsValue) : ProgressEvent :=
  { ProgressEvent.progress model ctx with status := some OperationStatus.Success }

/--
A JavaScript object viewed as its ordered list of own enumerable
properties, the view under which the object-spread operator acts. Later
entries shadow earlier ones, as later property assignments do in
JavaScript.
-/
abbrev JsObject := List (String × JsValue)

/--
Property lookup on a JsObject: the value of the last entry carrying the
key, `none` when no entry does — the JavaScript read of the property
after all assignments have been applied in order.
-/
def JsObject.lookup (o : JsObject) (k : String) : Option JsValue :=
  ((o.reverse).find? fun p => p.1 == k).map fun p => p.2

/--
The object-spread merge of two configuration objects, as in the client
constructor argument of proxy.ts. Spreading writes the first object and
then the second over it, so on lookup the second object wins key by key.
-/
def JsObject.spread (a b : JsObject) : JsObject := a ++ b

/--
The `CredentialsOptions` shape of the external SDK: an access key id and
secret, with an optional session token. Values of this shape are
JavaScript objects, hence always truthy, so `if (!credentials)` in
`getSession` is exactly the test for the argument being absent.
-/
structure CredentialsOptions where
  accessKeyId : String
  secretAccessKey : String
  sessionToken : Option String := none
deriving Repr

/-- The JavaScript object value carrying a CredentialsOptions. -/
def CredentialsOptions.toJs (c : CredentialsOptions) : JsValue :=
  JsValue.obj
    ([("accessKeyId", JsValue.str c.accessKeyId),
      ("secretAccessKey", JsValue.str c.secretAccessKey)] ++
      match c.sessionToken with
      | none => []
      | some t => [("sessionToken", JsValue.str t)])

/--
The SessionProxy class of proxy.ts. Its only instance state is the
private `options` configuration object captured by the constructor; the
class has no other field and no method ever assigns to it.
-/
structure SessionProxy where
  options : JsObject
deriving Repr

/--
A constructed SDK service client, as far as proxy.ts determines it: the
service name the constructor was looked up under and the configuration
object the constructor was passed. What the external constructor does
with them is outside this core.
-/
structure Client where
  name : String
  config : JsObject
deriving Repr

/--
The `client(name, options?)` method of proxy.ts as a state-passing step:
it constructs a new client from the spread
`{...this.options, ...options}` (spreading an absent `options` argument
adds nothing) and returns it together with the proxy state after the
call, which the method body — containing no assignment — leaves as it
found it. No field of the class caches the result.
-/
def SessionProxy.clientStep (p : SessionProxy) (name : String) (opts : Option JsObject) :
    Client × SessionProxy :=
  ({ name := name, config := JsObject.spread p.options (opts.getD []) }, p)

/--
The static `SessionProxy.getSession(credentials?, region?)` of proxy.ts:
`null` (here `none`) when the credentials argument is absent, otherwise
a new SessionProxy over the object literal `{credentials, region}` —
note the literal always carries both keys, the `region` key holding
`undefined` when that argument was omitted.
-/
def SessionProxy.getSession (credentials : Option CredentialsOptions) (region : Option String) :
    Option SessionProxy :=
  match credentials with
  | none => none
  | some c =>
    some
      { options :=
          [("credentials", c.toJs),
           ("region", match region with | none => JsValue.undefined | some r => JsValue.str r)] }

/--
Reading a key out of the spread of two configuration objects gives the
second object's value for that key when it carries the key, and the
first object's value otherwise: the per-call options win key by key.
-/
theorem JsObject.lookup_spread (a b : JsObject) (k : String) :
    JsObject.lookup (JsObject.spread a b) k =
      ((JsObject.lookup b k).or (JsObject.lookup a k)) := by
  unfold JsObject.lookup JsObject.spread
  rw [List.reverse_append, List.find?_append]
  cases (b.reverse.find? fun p => p.1 == k) <;> simp

/--
C1, corrected. `ProgressEvent.progress(model, ctx)` always returns an
event with status IN_PROGRESS, but the arguments are attached under
JavaScript truthiness, not under mere presence: `resourceModel` is
`model` when `model` is truthy and absent otherwise, and
`callbackContext` is `ctx` when `ctx` is truthy and absent otherwise.
A provided but falsy argument (for example the number 0) is dropped.
-/
theorem progress_truthy_attachment (model ctx : JsValue) :
    (ProgressEvent.progress model ctx).status = some OperationStatus.InProgress ∧
    (ProgressEvent.progress model ctx).resourceModel =
      (if model.truthy then model else JsValue.undefined) ∧
    (ProgressEvent.progress model ctx).callbackContext =
      (if ctx.truthy then ctx else JsValue.undefined) := by
  unfold ProgressEvent.progress ProgressEvent.progressSlots
  cases hm : model.truthy <;> cases hc : ctx.truthy <;>
    simp [hm, hc, IBuilder.build, ProgressEvent.builderStart, IBuilder.setStatus,
      IBuilder.setCallbackContext, IBuilder.setResourceModel]

/--
C1, counterexample to the claim as stated. The call
`ProgressEvent.progress(undefined, 0)` provides a ctx argument (0 is not
undefined), yet the returned event's `callbackContext` is absent rather
than equal to the provided ctx, because `if (ctx)` tests truthiness and
0 is falsy.
-/
theorem progress_provided_falsy_ctx_dropped :
    JsValue.num 0 ≠ JsValue.undefined ∧
    (ProgressEvent.progress JsValue.undefined (JsValue.num 0)).callbackContext =
      JsValue.undefined ∧
    (ProgressEvent.progress JsValue.undefined (JsValue.num 0)).callbackContext ≠
      JsValue.num 0 := by
  refine ⟨fun h => JsValue.noConfusion h, rfl, fun h => ?_⟩
  exact JsValue.noConfusion (show JsValue.undefined = JsValue.num 0 from h)

/--
C2. `ProgressEvent.failed(errorCode, message)` returns an event with
status FAILED, the given errorCode and message, and with
`resourceModel` and `callbackContext` absent (and every remaining field
at its class default).
-/
theorem failed_fields (code : HandlerErrorCode) (msg : String) :
    ProgressEvent.failed code msg =
      { status := some OperationStatus.Failed
        errorCode := some code
        message := some msg
        callbackContext := JsValue.undefined
        callbackDelaySeconds := some 0
        resourceModel := JsValue.undefined
        resourceModels := none
        nextToken := none } := rfl

/--
C3. `ProgressEvent.success(model, ctx)` agrees with
`ProgressEvent.progress(model, ctx)` on every field other than
`status`, which is SUCCESS.
-/
theorem success_matches_progress_except_status (model ctx : JsValue) :
    (ProgressEvent.success model ctx).status = some OperationStatus.Success ∧
    (ProgressEvent.success model ctx).errorCode =
      (ProgressEvent.progress model ctx).errorCode ∧
    (ProgressEvent.success model ctx).message =
      (ProgressEvent.progress model ctx).message ∧
    (ProgressEvent.success model ctx).callbackContext =
      (ProgressEvent.progress model ctx).callbackContext ∧
    (ProgressEvent.success model ctx).callbackDelaySeconds =
      (ProgressEvent.progress model ctx).callbackDelaySeconds ∧
    (ProgressEvent.success model ctx).resourceModel =
      (ProgressEvent.progress model ctx).resourceModel ∧
    (ProgressEvent.success model ctx).resourceModels =
      (ProgressEvent.progress model ctx).resourceModels ∧
    (ProgressEvent.success model ctx).nextToken =
      (ProgressEvent.progress model ctx).nextToken :=
  ⟨rfl, rfl, rfl, rfl, rfl, rfl, rfl, rfl⟩

/--
C4. `SessionProxy.getSession` returns null (modelled `none`) whenever no
credentials argument is supplied, whatever the region argument, and it
is a total function, so it never throws in that case; when credentials
are supplied it returns a non-null SessionProxy whose captured base
configuration is exactly the object literal `{credentials, region}`.
-/
theorem getSession_credentials_gate (region : Option String) (c : CredentialsOptions) :
    SessionProxy.getSession none region = none ∧
    SessionProxy.getSession (some c) region =
      some
        { options :=
            [("credentials", c.toJs),
             ("region",
              match region with | none => JsValue.undefined | some r => JsValue.str r)] } :=
  ⟨rfl, rfl⟩

/--
C5. The configuration handed to the client constructed by
`client(name, options)` is the shallow merge of the proxy's base
configuration with the per-call options, the per-call options winning
key by key; in particular a per-call region "X" overrides a base
region "Y".
-/
theorem client_config_merge (p : SessionProxy) (n k : String) (opts : JsObject)
    (c : CredentialsOptions) :
    JsObject.lookup ((p.clientStep n (some opts)).1.config) k =
      ((JsObject.lookup opts k).or (JsObject.lookup p.options k)) ∧
    JsObject.lookup
      (((SessionProxy.mk [("credentials", c.toJs), ("region", JsValue.str "Y")]).clientStep
        n (some [("region", JsValue.str "X")])).1.config) "region" =
      some (JsValue.str "X") :=
  ⟨JsObject.lookup_spread p.options opts k, rfl⟩

/--
C6. Constructing a ProgressEvent from a partial source object copies
every field whose key is present verbatim, leaves every other field at
its class default, adds and drops nothing else, and performs no
validation (the construction is total); in particular construction from
`{status: SUCCESS, message: "ok"}` yields exactly those two fields set
and every other field at its default.
-/
theorem fromPartial_copies_verbatim (p : PartialProgressEvent) :
    (ProgressEvent.fromPartial (some p)).status =
      (p.status).getD ((ProgressEvent.fromPartial none).status) ∧
    (ProgressEvent.fromPartial (some p)).errorCode =
      (p.errorCode).getD ((ProgressEvent.fromPartial none).errorCode) ∧
    (ProgressEvent.fromPartial (some p)).message =
      (p.message).getD ((ProgressEvent.fromPartial none).message) ∧
    (ProgressEvent.fromPartial (some p)).callbackContext =
      (p.callbackContext).getD ((ProgressEvent.fromPartial none).callbackContext) ∧
    (ProgressEvent.fromPartial (some p)).callbackDelaySeconds =
      (p.callbackDelaySeconds).getD ((ProgressEvent.fromPartial none).callbackDelaySeconds) ∧
    (ProgressEvent.fromPartial (some p)).resourceModel =
      (p.resourceModel).getD ((ProgressEvent.fromPartial none).resourceModel) ∧
    (ProgressEvent.fromPartial (some p)).resourceModels =
      (p.resourceModels).getD ((ProgressEvent.fromPartial none).resourceModels) ∧
    (ProgressEvent.fromPartial (some p)).nextToken =
      (p.nextToken).getD ((ProgressEvent.fromPartial none).nextToken) ∧
    ProgressEvent.fromPartial
        (some { status := some (some OperationStatus.Success), message := some (some "ok") }) =
      { status := some OperationStatus.Success
        errorCode := none
        message := some "ok"
        callbackContext := JsValue.undefined
        callbackDelaySeconds := some 0
        resourceModel := JsValue.undefined
        resourceModels := none
        nextToken := none } :=
  ⟨rfl, rfl, rfl, rfl, rfl, rfl, rfl, rfl, rfl⟩

/--
C7, over the spec-modelled terminal `build()`. The build step accepts a
builder exactly when its required fields were set — a status always,
and an errorCode whenever the status is FAILED — and every builder
chain of the convenience constructors in proxy.ts ends in a `build()`
that passes this validation and returns the constructor's event.
-/
theorem build_validates_required_fields :
    (∀ b : IBuilder, ((b.buildChecked).isSome) ↔
        ((b.status).isSome ∧
          ((b.status) = some OperationStatus.Failed → (b.errorCode).isSome))) ∧
    (∀ code msg, (ProgressEvent.failedSlots code msg).buildChecked =
        some (ProgressEvent.failed code msg)) ∧
    (∀ model ctx, (ProgressEvent.progressSlots model ctx).buildChecked =
        some (ProgressEvent.progress model ctx)) := by
  refine ⟨fun b => ?_, fun code msg => rfl, fun model ctx => ?_⟩
  · unfold IBuilder.buildChecked
    split <;> simp_all
  · cases hm : model.truthy <;> cases hc : ctx.truthy <;>
      simp [ProgressEvent.progress, ProgressEvent.progressSlots, hm, hc,
        IBuilder.buildChecked, ProgressEvent.builderStart, IBuilder.setStatus,
        IBuilder.setCallbackContext, IBuilder.setResourceModel]

/--
C8. A SessionProxy's captured base configuration is never mutated: the
proxy state after any `client(...)` call is the state before it, the
client returned is constructed afresh from the call's arguments and the
base configuration alone (the class has no cache field), and a repeated
call with the same arguments on the post-call state constructs the same
client again rather than returning a cached one.
-/
theorem clientStep_frame (p : SessionProxy) (n : String) (o : Option JsObject) :
    (p.clientStep n o).2 = p ∧
    (p.clientStep n o).1 =
      { name := n, config := JsObject.spread p.options (o.getD []) } ∧
    (((p.clientStep n o).2).clientStep n o).1 = (p.clientStep n o).1 :=
  ⟨rfl, rfl, rfl⟩

/--
C9. A ProgressEvent constructed with no partial source object has the
class defaults `message = ''` and `callbackDelaySeconds = 0`.
-/
theorem default_construction_defaults :
    (ProgressEvent.fromPartial none).message = some "" ∧
    (ProgressEvent.fromPartial none).callbackDelaySeconds = some 0 :=
  ⟨rfl, rfl⟩

/--
C10. A partial source object carrying a key whose value is explicitly
undefined overrides the class default for that field: constructing from
`{message: undefined}` yields an event whose message is undefined
rather than the default empty string, and an explicitly-undefined
`callbackDelaySeconds` likewise replaces the default 0.
-/
theorem fromPartial_explicit_undefined_overrides :
    (ProgressEvent.fromPartial (some { message := some none })).message = none ∧
    (ProgressEvent.fromPartial
        (some { callbackDelaySeconds := some none })).callbackDelaySeconds = none :=
  ⟨rfl, rfl⟩

end CfnProxy
